import Mathlib

/-!
Verification of the flow-sdk bid/auction core.

Shallow embedding of the Python sources:
  - `src/flow/managers/auction_finder.py`  (AuctionMatcher, AuctionFinder)
  - `src/flow/managers/bid_manager.py`     (BidSubmitter, ChunkedBidEngine, BidManager)
  - `src/flow/clients/fcp_client.py`       (BidService.place_bid, BidService.cancel_bid)
  - `src/flow/clients/http_client.py`      (HTTPClient.request error path)
  - `src/flow/models/bid_response.py`      (BidResponse, BidResponse.dummy_response)
  - `src/flow/managers/task_manager.py`    (FlowTaskManager.prepare_limit_price_cents)

Modelling conventions:
  - Python strings are Lean `String`; `str.lower()` / `str.strip()` are modelled by
    `String.toLower` / `String.trim` (ASCII semantics, adequate for all identifiers
    and message fragments the code compares).
  - Python `None` is `Option.none`; Python truthiness of an optional string
    (`if not x:`) is modelled by `truthy` below (both `None` and `""` are falsy).
  - Python floats are modelled as exact rationals (`Rat`); `int(x)` is truncation
    toward zero (`pyTrunc`).  All priority-table products `price * 100` are exact
    integers, where IEEE-754 evaluation agrees with the rational model.
  - Exceptions are modelled by `Except PyExc`; remote I/O outcomes are passed in
    as explicit parameters (the HTTP session response, the uuid generator output,
    the catalog file contents), so every function is a pure function of the code
    state plus its environment.
-/

/-! ## Python string primitives -/

/-- Python `str.lower()` (ASCII), defined by structural recursion on the
character list so that it reduces inside `decide`. -/
def pyLower (s : String) : String :=
  ⟨s.data.map Char.toLower⟩

/-- Drop leading whitespace characters. -/
def dropWs (l : List Char) : List Char :=
  l.dropWhile Char.isWhitespace

/-- Python `str.strip()` (ASCII whitespace), by structural recursion. -/
def pyStrip (s : String) : String :=
  ⟨((dropWs s.data).reverse.dropWhile Char.isWhitespace).reverse⟩

/-- Python truthiness of an `Optional[str]`: `None` and `""` are falsy. -/
def truthy : Option String → Bool
  | none => false
  | some s => !s.isEmpty

/-- Does the character list `hay` start with `pat`? -/
def startsWithChars : List Char → List Char → Bool
  | [], _ => true
  | _ :: _, [] => false
  | p :: ps, h :: hs => p == h && startsWithChars ps hs

/-- Does `pat` occur (contiguously) anywhere in `hay`? -/
def containsChars (pat : List Char) : List Char → Bool
  | [] => pat.isEmpty
  | h :: t => startsWithChars pat (h :: t) || containsChars pat t

/-- Python `pat in hay` for strings. -/
def strContains (hay pat : String) : Bool :=
  containsChars pat.data hay.data

/-- A regex word character (`\w`), ASCII fragment: letters, digits, underscore. -/
def isWordChar (c : Char) : Bool :=
  c.isAlphanum || c == '_'

/-- Is the character at position `i` of `s` a word character (false past the end)? -/
def wordAt (s : List Char) (i : Nat) : Bool :=
  match s.get? i with
  | some c => isWordChar c
  | none => false

/-- Does a regex word boundary `\b` hold between positions `i-1` and `i` of `s`? -/
def boundaryAt (s : List Char) (i : Nat) : Bool :=
  (if i = 0 then false else wordAt s (i - 1)) != wordAt s i

/-- Semantics of `re.search(rf"\b{re.escape(pat)}\b", hay)`: the escaped pattern
matches `pat` literally (regex metacharacters in `pat` have no special meaning),
bracketed by word boundaries. -/
def wordSearch (pat hay : List Char) : Bool :=
  (List.range (hay.length + 1)).any fun i =>
    boundaryAt hay i && startsWithChars pat (hay.drop i) && boundaryAt hay (i + pat.length)

/-- Python `int()` applied to a rational: truncation toward zero
(`Int.tdiv` truncates toward zero on the normalized numerator/denominator). -/
def pyTrunc (q : Rat) : Int :=
  Int.tdiv q.num (q.den : Int)

/-- Multiplication of a rational by 100, written with `mkRat` so that it
evaluates by kernel reduction; `ratMul100_eq` proves it is `q * 100`. -/
def ratMul100 (q : Rat) : Rat :=
  mkRat (q.num * 100) q.den

/-- Decidable equality for `Except` results, used to evaluate the embedded
operations at concrete inputs. -/
instance {e a : Type} [DecidableEq e] [DecidableEq a] : DecidableEq (Except e a) := fun x y =>
  match x, y with
  | .ok u, .ok v => if h : u = v then .isTrue (by rw [h]) else .isFalse (by simp [h])
  | .error u, .error v => if h : u = v then .isTrue (by rw [h]) else .isFalse (by simp [h])
  | .ok _, .error _ => .isFalse (by simp)
  | .error _, .ok _ => .isFalse (by simp)

/-! ## Data model -/

/-- Modelled from the spec: `ResourcesSpecification` (task_config/models.py is not
under src/; §3 of the spec lists its fields: gpu_type, num_gpus,
intranode_interconnect, internode_interconnect, fcp_instance, num_instances, all
optional).  The repository tests construct it with negative num_gpus, so num_gpus
is an unconstrained integer. -/
structure ResourcesSpecification where
  gpu_type : Option String := none
  num_gpus : Option Int := none
  intranode_interconnect : Option String := none
  internode_interconnect : Option String := none
  fcp_instance : Option String := none
  num_instances : Option Nat := none
deriving DecidableEq, Repr

/-- Modelled from the spec: `Auction` (the pydantic model in flow/models is not
under src/; §3 of the spec lists its fields, all optional in the tests, and the
model-wide invariant that quantity fields reject negative values at
construction, so inventory_quantity is `Option Nat`). -/
structure Auction where
  cluster_id : Option String := none
  gpu_type : Option String := none
  inventory_quantity : Option Nat := none
  num_gpus : Option Int := none
  intranode_interconnect : Option String := none
  internode_interconnect : Option String := none
  fcp_instance : Option String := none
  instance_type_id : Option String := none
  last_price : Option Rat := none
  region : Option String := none
  region_id : Option String := none
  resource_specification_id : Option String := none
deriving DecidableEq, Repr

/-! ## AuctionMatcher (auction_finder.py) -/

/-- One entry of the structured check results built by `AuctionMatcher`.  The
`detail` member of the Python dict is a purely diagnostic f-string and is not
modelled. -/
structure CheckResult where
  name : String
  passed : Bool
deriving DecidableEq, Repr

namespace AuctionMatcher

/-- `AuctionMatcher._check_gpu_type`. -/
def check_gpu_type (criteria : ResourcesSpecification) (auction : Auction) : CheckResult :=
  if !truthy criteria.gpu_type then
    { name := "GPU Type", passed := true }
  else
    let expected := pyLower (pyStrip (criteria.gpu_type.getD ""))
    let actual := pyLower (auction.gpu_type.getD "")
    { name := "GPU Type", passed := wordSearch expected.data actual.data }

/-- `AuctionMatcher._check_num_gpus`.  `auction.inventory_quantity or 0` maps
`None` (and 0) to 0. -/
def check_num_gpus (criteria : ResourcesSpecification) (auction : Auction) : CheckResult :=
  match criteria.num_gpus with
  | none => { name := "Number of GPUs", passed := true }
  | some required =>
    let actual : Int := (auction.inventory_quantity.getD 0 : Nat)
    { name := "Number of GPUs", passed := decide (actual ≥ required) }

/-- `AuctionMatcher._check_internode_interconnect`. -/
def check_internode_interconnect (criteria : ResourcesSpecification) (auction : Auction) :
    CheckResult :=
  if !truthy criteria.internode_interconnect then
    { name := "Inter-node Interconnect", passed := true }
  else
    let expected := pyLower (criteria.internode_interconnect.getD "")
    let actual := pyLower (auction.internode_interconnect.getD "")
    { name := "Inter-node Interconnect", passed := actual == expected }

/-- `AuctionMatcher._check_intranode_interconnect`. -/
def check_intranode_interconnect (criteria : ResourcesSpecification) (auction : Auction) :
    CheckResult :=
  if !truthy criteria.intranode_interconnect then
    { name := "Intra-node Interconnect", passed := true }
  else
    let expected := pyLower (criteria.intranode_interconnect.getD "")
    let actual := pyLower (auction.intranode_interconnect.getD "")
    { name := "Intra-node Interconnect", passed := actual == expected }

/-- `AuctionMatcher._check_fcp_instance`: case-sensitive equality of the
`Optional[str]` values (an auction with `fcp_instance=None` never equals a
specified criterion). -/
def check_fcp_instance (criteria : ResourcesSpecification) (auction : Auction) : CheckResult :=
  if !truthy criteria.fcp_instance then
    { name := "FCP Instance", passed := true }
  else
    { name := "FCP Instance", passed := decide (auction.fcp_instance = criteria.fcp_instance) }

/-- `AuctionMatcher.matches` (`matches` is reserved in Lean): gather the five checks, collect the failing ones,
return False when any check failed. -/
def matchesAuction (criteria : ResourcesSpecification) (auction : Auction) : Bool :=
  let check_results := [
    check_gpu_type criteria auction,
    check_num_gpus criteria auction,
    check_internode_interconnect criteria auction,
    check_intranode_interconnect criteria auction,
    check_fcp_instance criteria auction]
  let failing_checks := check_results.filter fun res => !res.passed
  if failing_checks.isEmpty then true else false

end AuctionMatcher

/-! ## AuctionFinder (auction_finder.py) -/

/-- Python `a or b` on optional strings: the left value unless it is falsy. -/
def pyOrStr (a b : Option String) : Option String :=
  if truthy a then a else b

/-- Python `a or b` on optional numbers (0 is falsy). -/
def pyOrNum (a b : Option Int) : Option Int :=
  match a with
  | some x => if x = 0 then b else some x
  | none => b

/-- Python `a or b` on optional rationals (0.0 is falsy). -/
def pyOrRat (a b : Option Rat) : Option Rat :=
  match a with
  | some x => if x = 0 then b else some x
  | none => b

namespace AuctionFinder

/-- Insert into a Python dict modelled as an association list: a later insert
with the same key overwrites. -/
def dictInsert (k : String) (v : Auction) (m : List (String × Auction)) :
    List (String × Auction) :=
  match m with
  | [] => [(k, v)]
  | (k', v') :: rest => if k' == k then (k, v) :: rest else (k', v') :: dictInsert k v rest

/-- The `local_by_instance_type` dict: auctions with a truthy instance_type_id,
keyed by it, later entries overwriting earlier ones. -/
def localByInstanceType (local_catalog_auctions : List Auction) : List (String × Auction) :=
  local_catalog_auctions.foldl
    (fun m a =>
      match a.instance_type_id with
      | some k => if k.isEmpty then m else dictInsert k a m
      | none => m)
    []

/-- The merged Auction built inside `_enrich_auctions_with_catalog_data` for a
Foundry auction and its catalog match. -/
def mergeAuction (foundry_auction local_match : Auction) : Auction :=
  { cluster_id := pyOrStr foundry_auction.cluster_id local_match.cluster_id
    gpu_type := pyOrStr foundry_auction.gpu_type local_match.gpu_type
    inventory_quantity :=
      match foundry_auction.inventory_quantity with
      | some q => some q
      | none => local_match.inventory_quantity
    num_gpus := pyOrNum foundry_auction.num_gpus local_match.num_gpus
    intranode_interconnect :=
      pyOrStr foundry_auction.intranode_interconnect local_match.intranode_interconnect
    internode_interconnect :=
      pyOrStr foundry_auction.internode_interconnect local_match.internode_interconnect
    fcp_instance := pyOrStr foundry_auction.fcp_instance local_match.fcp_instance
    instance_type_id := foundry_auction.instance_type_id
    last_price := pyOrRat foundry_auction.last_price local_match.last_price
    region := pyOrStr foundry_auction.region local_match.region
    region_id := pyOrStr foundry_auction.region_id local_match.region_id
    resource_specification_id :=
      pyOrStr foundry_auction.resource_specification_id
        local_match.resource_specification_id }

/-- `AuctionFinder._enrich_auctions_with_catalog_data`. -/
def enrichAuctionsWithCatalogData (foundry_auctions local_catalog_auctions : List Auction) :
    List Auction :=
  let localMap := localByInstanceType local_catalog_auctions
  foundry_auctions.map fun fa =>
    match fa.instance_type_id with
    | none => fa
    | some k =>
      if k.isEmpty then fa
      else
        match localMap.lookup k with
        | none => fa
        | some lm => mergeAuction fa lm

/-- `AuctionFinder.fetch_auctions`.  The I/O environment enters as parameters:
`foundryAuctions` is what `FoundryClient.get_auctions` returns for the given
project, `loadCatalog` is what `_load_auctions_from_local_catalog` produces for
a path, `defaultCatalogExists` and `defaultCatalog` describe the default
catalog file.  An ok result is the returned list; an error is the raised
`ValueError` message. -/
def fetch_auctions (project_id : Option String) (local_catalog_path : Option String)
    (foundryAuctions : List Auction) (loadCatalog : String → List Auction)
    (defaultCatalogExists : Bool) (defaultCatalog : List Auction) :
    Except String (List Auction) :=
  let auctions_from_foundry := if truthy project_id then foundryAuctions else []
  let auctions_from_local :=
    match local_catalog_path with
    | some p => loadCatalog p
    | none => if defaultCatalogExists then defaultCatalog else []
  if !auctions_from_foundry.isEmpty && !auctions_from_local.isEmpty then
    .ok (enrichAuctionsWithCatalogData auctions_from_foundry auctions_from_local)
  else if !auctions_from_foundry.isEmpty then
    .ok auctions_from_foundry
  else if !auctions_from_local.isEmpty then
    .ok auctions_from_local
  else
    .error "You must provide either project_id to fetch from Foundry or local_catalog_path to load a static catalog, or both."

/-- `AuctionFinder.find_matching_auctions`: list-comprehension filter by the
matcher, preserving order. -/
def find_matching_auctions (auctions : List Auction) (criteria : ResourcesSpecification) :
    List Auction :=
  auctions.filter fun auction => AuctionMatcher.matchesAuction criteria auction

end AuctionFinder

/-! ## Exceptions -/

/-- Modelled from the spec: the error taxonomy seen by this core (flow/utils/
exceptions.py is not under src/; §6 of the spec: auth, network, timeout,
generic API error), together with the exception classes raised by the code
under src/ (`BidSubmissionError` carrying its `__cause__`, `ValueError`,
pydantic `ValidationError`) and two `BaseException`s that are not `Exception`s
(`KeyboardInterrupt`, `SystemExit`) plus a generic programmer error
(`TypeError`). -/
inductive PyExc where
  | apiError (msg : String)
  | authenticationError (msg : String)
  | networkError (msg : String)
  | timeoutError (msg : String)
  | valueError (msg : String)
  | validationError (msg : String)
  | typeError (msg : String)
  | bidSubmissionError (msg : String) (cause : PyExc)
  | keyboardInterrupt
  | systemExit
deriving DecidableEq, Repr

/-- Is the exception an instance of Python `Exception` (caught by
`except Exception`)?  `KeyboardInterrupt` and `SystemExit` derive only
`BaseException`. -/
def PyExc.isExceptionClass : PyExc → Bool
  | .keyboardInterrupt => false
  | .systemExit => false
  | _ => true

/-! ## Bid data model -/

/-- Modelled from the spec: `BidPayload` (the pydantic model in flow/models is
not under src/; §3 of the spec: cluster_id, instance_quantity (>0),
instance_type_id, limit_price_cents (>0), order_name, project_id, ssh_key_ids,
user_id, optional startup_script, optional disk attachments).  Disk
attachments are represented by their ids; `BidDiskAttachment.from_disk_attachment`
converts 1:1. -/
structure BidPayload where
  cluster_id : String
  instance_quantity : Int
  instance_type_id : String
  limit_price_cents : Int
  order_name : String
  project_id : String
  ssh_key_ids : List String
  user_id : String
  startup_script : Option String := none
  disk_attachments : List String := []
deriving DecidableEq, Repr

/-- Modelled from the spec: construction-time validation of `BidPayload` (§3:
"every quantity and price field is a strictly positive integer where
applicable; a value of 0 or negative is a construction-time error", §8:
"BidPayload(limit_price_cents=0, ...) must fail construction;
limit_price_cents=1 must succeed").  A failed validation is the pydantic
`ValidationError` raised by the constructor. -/
def mkBidPayload (cluster_id : String) (instance_quantity : Int) (instance_type_id : String)
    (limit_price_cents : Int) (order_name project_id : String) (ssh_key_ids : List String)
    (user_id : String) (startup_script : Option String) (disk_attachments : List String) :
    Except PyExc BidPayload :=
  if instance_quantity ≤ 0 then
    .error (.validationError "instance_quantity must be greater than 0")
  else if limit_price_cents ≤ 0 then
    .error (.validationError "limit_price_cents must be greater than 0")
  else
    .ok { cluster_id, instance_quantity, instance_type_id, limit_price_cents,
          order_name, project_id, ssh_key_ids, user_id, startup_script, disk_attachments }

/-- `BidResponse` from src/flow/models/bid_response.py — the model class that
`flow.models` exports and `BidService.place_bid` validates against (the tests
read `.name` from it and `BidResponse.dummy_response` is defined on it).  Note
it has a `name` field and no `status` or `order_name` field.  The two datetime
fields are carried as opaque optional strings. -/
structure BidResponse where
  id : String
  name : Option String := none
  cluster_id : String
  instance_quantity : Int
  instance_type_id : String
  limit_price_cents : Int
  project_id : Option String := none
  user_id : Option String := none
  disk_ids : Option (List String) := none
  created_at : Option String := none
  deactivated_at : Option String := none
deriving DecidableEq, Repr

/-- The `not_empty_fields` pydantic validator of `BidResponse`: `id`,
`cluster_id` and `instance_type_id` must not be empty or whitespace. -/
def BidResponse.validFields (r : BidResponse) : Bool :=
  !(pyStrip r.id).isEmpty && !(pyStrip r.cluster_id).isEmpty && !(pyStrip r.instance_type_id).isEmpty

/-- `BidResponse.dummy_response`: the locally synthesized response for a
detected duplicate bid.  `uuid` is the freshly generated `str(uuid.uuid4())`
value, passed in as a parameter.  `disk_ids or []` maps both `None` and `[]`
to `[]`. -/
def BidResponse.dummy_response (uuid : String) (order_name : String)
    (project_id user_id : Option String) (disk_ids : Option (List String))
    (cluster_id : String) (instance_quantity : Int) (instance_type_id : String)
    (limit_price_cents : Int) : BidResponse :=
  { id := uuid
    name := some order_name
    cluster_id
    instance_quantity
    instance_type_id
    limit_price_cents
    project_id
    user_id
    disk_ids := some ((disk_ids.getD []))
    created_at := none
    deactivated_at := none }

/-- A JSON value as serialized by `model_dump_json`. -/
inductive JVal where
  | str (s : String)
  | num (n : Int)
  | null
  | strArr (xs : List String)
deriving DecidableEq, Repr

/-- Serialize an optional string field. -/
def optStrJ : Option String → JVal
  | none => .null
  | some s => .str s

/-- The field map of `BidResponse.model_dump_json()`: every declared field of
the model, in declaration order.  There is no "status" and no "order_name"
field. -/
def BidResponse.dumpFields (r : BidResponse) : List (String × JVal) :=
  [("id", .str r.id),
   ("name", optStrJ r.name),
   ("cluster_id", .str r.cluster_id),
   ("instance_quantity", .num r.instance_quantity),
   ("instance_type_id", .str r.instance_type_id),
   ("limit_price_cents", .num r.limit_price_cents),
   ("project_id", optStrJ r.project_id),
   ("user_id", optStrJ r.user_id),
   ("disk_ids", match r.disk_ids with | some xs => .strArr xs | none => .null),
   ("created_at", optStrJ r.created_at),
   ("deactivated_at", optStrJ r.deactivated_at)]

/-! ## BidService (fcp_client.py) -/

/-- The outcome of the underlying HTTP POST as seen by `HTTPClient.request`:
either a response below status 400 that parses and validates into a
`BidResponse`, or a response with `status ≥ 400` whose textual content (the
JSON-dumped body, or the raw text when not JSON) is `body`. -/
inductive RemoteResult where
  | ok (r : BidResponse)
  | httpError (status : Nat) (body : String)
deriving DecidableEq, Repr

/-- `BidService.place_bid` composed with the `HTTPClient.request` error path.

`uuid` is the fresh `str(uuid.uuid4())` used for the dummy response id;
`serviceUserId` is the `BidService._user_id` of the authenticated user;
`idempotency_key` only travels in a request header, so it does not affect the
result for a fixed `remote` outcome.

On `status ≥ 400` the request layer builds the error string and calls
`duplicate_bid_handler`: for a 400 whose lowercased body contains both
"order named" and "already exists" the handler fabricates a 200 response
around `BidResponse.dummy_response` (which `place_bid` then re-validates —
an identity round-trip); otherwise 401/403 raise `AuthenticationError` and
every other status an `APIError`.  The `request_data.get(...)` defaults
(e.g. `"unknown"` for cluster_id) never fire for the modelled fields because
they are required in `BidPayload` and `model_dump(exclude_none=True)` only
drops optional `None` fields, so the lookups yield the payload values. -/
def BidService.place_bid (uuid serviceUserId : String) (payload : BidPayload)
    (_idempotency_key : Option String) (remote : RemoteResult) : Except PyExc BidResponse :=
  match remote with
  | .ok r => .ok r
  | .httpError status body =>
    let error_str := pyLower body
    if status = 400 && strContains error_str "order named" &&
        strContains error_str "already exists" then
      .ok (BidResponse.dummy_response uuid payload.order_name
        (some payload.project_id) (some serviceUserId) (some [])
        payload.cluster_id payload.instance_quantity payload.instance_type_id
        payload.limit_price_cents)
    else if status = 401 || status = 403 then
      .error (.authenticationError "Authentication token is invalid")
    else
      .error (.apiError s!"API request failed [{status}]: {body}")

/-- `BidService.cancel_bid` applied to the outcome of the DELETE request
(`.ok ()` when the remote call succeeded, `.error e` when it raised).  Only an
`APIError` whose message contains "Bid not found" is swallowed; everything
else propagates unchanged. -/
def BidService.cancel_bid (remote : Except PyExc Unit) : Except PyExc Unit :=
  match remote with
  | .ok () => .ok ()
  | .error e =>
    match e with
    | .apiError msg =>
      if strContains msg "Bid not found" then .ok () else .error (.apiError msg)
    | other => .error other

/-! ## BidSubmitter and ChunkedBidEngine (bid_manager.py) -/

/-- `BidSubmitter.submit`: delegate to the bid client's `place_bid` (its result
for this payload is the argument `placed`); `except Exception as e:` wraps any
`Exception` into `BidSubmissionError` with the original as cause.  Only
non-`Exception` `BaseException`s escape unwrapped. -/
def BidSubmitter.submit {β : Type} (placed : Except PyExc β) : Except PyExc β :=
  match placed with
  | .ok bid => .ok bid
  | .error e =>
    if e.isExceptionClass then .error (.bidSubmissionError "Bid submission failed" e)
    else .error e

/-- `PartialBidParams` (bid_manager.py): chunk-submission parameters.  Numeric
fields use `Nat` for quantities; pydantic validation (`mkPartialBidParams`)
enforces the `gt=0` / `min_length=1` constraints. -/
structure PartialBidParams where
  cluster_id : String
  instance_quantity : Nat
  instance_type_id : String
  limit_price_cents : Int
  order_name : String
  ssh_key_id : String
  user_id : String
  startup_script : Option String := none
  disk_attachments : List String := []
  chunk_size : Nat := 1
deriving DecidableEq, Repr

/-- The pydantic validation of `PartialBidParams`: strings `min_length=1`,
`instance_quantity`, `limit_price_cents` and `chunk_size` strictly positive. -/
def mkPartialBidParams (p : PartialBidParams) : Except PyExc PartialBidParams :=
  if p.cluster_id.isEmpty || p.instance_type_id.isEmpty || p.order_name.isEmpty ||
      p.ssh_key_id.isEmpty || p.user_id.isEmpty then
    .error (.validationError "string fields require min_length 1")
  else if p.instance_quantity = 0 then
    .error (.validationError "instance_quantity must be greater than 0")
  else if p.limit_price_cents ≤ 0 then
    .error (.validationError "limit_price_cents must be greater than 0")
  else if p.chunk_size = 0 then
    .error (.validationError "chunk_size must be greater than 0")
  else
    .ok p

/-- The BidPayload built by `BidPayloadBuilder.build` inside the chunk loop for
chunk index `chunk_index` (1-based) and size `current_chunk`. -/
def chunkPayload (customizer : Option (Nat → Option String → Option String))
    (project_id : String) (params : PartialBidParams) (chunk_index : Nat)
    (current_chunk : Nat) : Except PyExc BidPayload :=
  let chunk_order_name := params.order_name ++ s!"-chunk{chunk_index}"
  let chunk_script :=
    match customizer with
    | some f => f chunk_index params.startup_script
    | none => params.startup_script
  mkBidPayload params.cluster_id (current_chunk : Int) params.instance_type_id
    params.limit_price_cents chunk_order_name project_id [params.ssh_key_id]
    params.user_id chunk_script params.disk_attachments

/-- The `while remaining > 0` loop of `ChunkedBidEngine.submit_chunks`,
submitting each chunk through `submit` (the composition of `BidSubmitter` with
the client) and collecting the bids in order; the first failure aborts the
remaining chunks.  A `chunk_size` of 0 cannot reach this loop (pydantic
validation) — in Python it would loop forever, modelled as an error. -/
def submitChunksLoop {β : Type} (submit : BidPayload → Except PyExc β)
    (customizer : Option (Nat → Option String → Option String)) (project_id : String)
    (params : PartialBidParams) (chunk_index : Nat) (remaining : Nat) :
    Except PyExc (List β) :=
  if _h : remaining = 0 then
    .ok []
  else if _hc : params.chunk_size = 0 then
    .error (.valueError "non-termination: chunk_size = 0")
  else
    match chunkPayload customizer project_id params chunk_index
        (min params.chunk_size remaining) with
    | .error e => .error e
    | .ok payload =>
      match submit payload with
      | .error e => .error e
      | .ok bid =>
        match submitChunksLoop submit customizer project_id params (chunk_index + 1)
            (remaining - min params.chunk_size remaining) with
        | .error e => .error e
        | .ok rest => .ok (bid :: rest)
termination_by remaining
decreasing_by
  have hmin : 0 < min params.chunk_size remaining := lt_min (by omega) (by omega)
  omega

/-- `ChunkedBidEngine.submit_chunks`. -/
def ChunkedBidEngine.submit_chunks {β : Type} (submit : BidPayload → Except PyExc β)
    (customizer : Option (Nat → Option String → Option String)) (project_id : String)
    (params : PartialBidParams) : Except PyExc (List β) :=
  submitChunksLoop submit customizer project_id params 1 params.instance_quantity

/-! ## BidManager (bid_manager.py) -/

/-- The raw keyword parameters of `BidManager.submit_bid` other than
`project_id` and `bid_payload`. -/
structure SubmitBidArgs where
  cluster_id : Option String := none
  instance_quantity : Option Int := none
  instance_type_id : Option String := none
  limit_price_cents : Option Int := none
  order_name : Option String := none
  ssh_key_id : Option String := none
  user_id : Option String := none
  startup_script : Option String := none
  disk_attachments : List String := []
  allow_partial_fulfillment : Bool := false
  chunk_size : Nat := 1
deriving Repr

/-- Python truthiness of an `Optional[int]` (`None` and 0 are falsy). -/
def truthyInt : Option Int → Bool
  | none => false
  | some n => n != 0

/-- The `all([...])` completeness test of single-bid parameter mode. -/
def SubmitBidArgs.allRequired (a : SubmitBidArgs) : Bool :=
  truthy a.cluster_id && truthyInt a.instance_quantity && truthy a.instance_type_id &&
    truthyInt a.limit_price_cents && truthy a.order_name && truthy a.ssh_key_id &&
    truthy a.user_id

/-- `BidManager._submit_single_bid`: call `FoundryClient.place_bid` directly
(not through `BidSubmitter`) and wrap the single response in a list.  `place`
is the foundry client operation `place_bid(project_id, payload)`; any
exception it raises propagates unchanged. -/
def BidManager.submitSingleBid {β : Type} (place : String → BidPayload → Except PyExc β)
    (project_id : String) (bid_payload : BidPayload) : Except PyExc (List β) :=
  match place project_id bid_payload with
  | .ok bid => .ok [bid]
  | .error e => .error e

/-- `BidManager.submit_bid`: dispatch to single-bid mode (pre-built payload, or
raw parameters with `allow_partial_fulfillment=False`) or to the chunked
engine.  In partial mode the chunk submitter is `BidSubmitter.submit`
composed with the client, and a `ValidationError` from `PartialBidParams` is
re-raised as `ValueError`. -/
def BidManager.submit_bid {β : Type} (place : String → BidPayload → Except PyExc β)
    (customizer : Option (Nat → Option String → Option String)) (project_id : String)
    (bid_payload : Option BidPayload) (args : SubmitBidArgs) : Except PyExc (List β) :=
  match bid_payload with
  | some payload => BidManager.submitSingleBid place project_id payload
  | none =>
    if !args.allow_partial_fulfillment then
      if !args.allRequired then
        .error (.valueError "Missing required parameters for single-bid submission.")
      else
        match mkBidPayload (args.cluster_id.getD "") (args.instance_quantity.getD 0)
            (args.instance_type_id.getD "") (args.limit_price_cents.getD 0)
            (args.order_name.getD "") project_id [args.ssh_key_id.getD ""]
            (args.user_id.getD "") args.startup_script args.disk_attachments with
        | .error e => .error e
        | .ok payload => BidManager.submitSingleBid place project_id payload
    else
      match mkPartialBidParams
          { cluster_id := args.cluster_id.getD ""
            instance_quantity := (args.instance_quantity.getD 0).toNat
            instance_type_id := args.instance_type_id.getD ""
            limit_price_cents := args.limit_price_cents.getD 0
            order_name := args.order_name.getD ""
            ssh_key_id := args.ssh_key_id.getD ""
            user_id := args.user_id.getD ""
            startup_script := args.startup_script
            disk_attachments := args.disk_attachments
            chunk_size := args.chunk_size } with
      | .error _ => .error (.valueError "Invalid partial bid parameters")
      | .ok params =>
        ChunkedBidEngine.submit_chunks
          (fun payload => BidSubmitter.submit (place project_id payload))
          customizer project_id params

/-! ## FlowTaskManager.prepare_limit_price_cents (task_manager.py) -/

/-- `PRIORITY_PRICE_MAPPING` from config/base_settings.py, prices as exact
rationals: critical 14.99, high 12.29, standard 4.24, low 2.00. -/
def PRIORITY_PRICE_MAPPING : List (String × Rat) :=
  [("critical", mkRat 1499 100),
   ("high", mkRat 1229 100),
   ("standard", mkRat 424 100),
   ("low", mkRat 2 1)]

/-- `FlowTaskManager.prepare_limit_price_cents`: an explicit utility threshold
price takes precedence (`int(float(u) * 100)`; the `float()` conversion is the
identity on a float and cannot raise `ValueError` there); otherwise look the
lowercased priority up in the price table and return `int(price * 100)`; an
unknown priority raises `ValueError`. -/
def FlowTaskManager.prepare_limit_price_cents (priority : String)
    (utility_threshold_price : Option Rat) : Except PyExc Int :=
  match utility_threshold_price with
  | some u => .ok (pyTrunc (ratMul100 u))
  | none =>
    match PRIORITY_PRICE_MAPPING.lookup (pyLower priority) with
    | some price => .ok (pyTrunc (ratMul100 price))
    | none => .error (.valueError s!"Invalid or unsupported priority level: {priority}")

/-! ## General lemmas about the embedding -/

/-- `ratMul100` is multiplication by 100. -/
theorem ratMul100_eq (q : Rat) : ratMul100 q = q * 100 := by
  unfold ratMul100
  rw [Rat.mkRat_eq_div]
  push_cast
  rw [mul_div_right_comm, Rat.num_div_den]

/-- The filter/isEmpty formulation of `matches` equals the conjunction of the
five check outcomes. -/
theorem matches_eq (s : ResourcesSpecification) (a : Auction) :
    AuctionMatcher.matchesAuction s a =
      ((AuctionMatcher.check_gpu_type s a).passed &&
       (AuctionMatcher.check_num_gpus s a).passed &&
       (AuctionMatcher.check_internode_interconnect s a).passed &&
       (AuctionMatcher.check_intranode_interconnect s a).passed &&
       (AuctionMatcher.check_fcp_instance s a).passed) := by
  unfold AuctionMatcher.matchesAuction
  cases h1 : (AuctionMatcher.check_gpu_type s a).passed <;>
    cases h2 : (AuctionMatcher.check_num_gpus s a).passed <;>
    cases h3 : (AuctionMatcher.check_internode_interconnect s a).passed <;>
    cases h4 : (AuctionMatcher.check_intranode_interconnect s a).passed <;>
    cases h5 : (AuctionMatcher.check_fcp_instance s a).passed <;>
    simp_all [List.filter]

/-- The GPU-type check only reads the `gpu_type` criterion. -/
theorem check_gpu_type_congr {s s' : ResourcesSpecification} (a : Auction)
    (h : s'.gpu_type = s.gpu_type) :
    AuctionMatcher.check_gpu_type s' a = AuctionMatcher.check_gpu_type s a := by
  unfold AuctionMatcher.check_gpu_type
  rw [h]

/-- The GPU-count check only reads the `num_gpus` criterion. -/
theorem check_num_gpus_congr {s s' : ResourcesSpecification} (a : Auction)
    (h : s'.num_gpus = s.num_gpus) :
    AuctionMatcher.check_num_gpus s' a = AuctionMatcher.check_num_gpus s a := by
  unfold AuctionMatcher.check_num_gpus
  rw [h]

/-- The inter-node check only reads the `internode_interconnect` criterion. -/
theorem check_internode_congr {s s' : ResourcesSpecification} (a : Auction)
    (h : s'.internode_interconnect = s.internode_interconnect) :
    AuctionMatcher.check_internode_interconnect s' a =
      AuctionMatcher.check_internode_interconnect s a := by
  unfold AuctionMatcher.check_internode_interconnect
  rw [h]

/-- The intra-node check only reads the `intranode_interconnect` criterion. -/
theorem check_intranode_congr {s s' : ResourcesSpecification} (a : Auction)
    (h : s'.intranode_interconnect = s.intranode_interconnect) :
    AuctionMatcher.check_intranode_interconnect s' a =
      AuctionMatcher.check_intranode_interconnect s a := by
  unfold AuctionMatcher.check_intranode_interconnect
  rw [h]

/-- The FCP-instance check only reads the `fcp_instance` criterion. -/
theorem check_fcp_congr {s s' : ResourcesSpecification} (a : Auction)
    (h : s'.fcp_instance = s.fcp_instance) :
    AuctionMatcher.check_fcp_instance s' a = AuctionMatcher.check_fcp_instance s a := by
  unfold AuctionMatcher.check_fcp_instance
  rw [h]

/-! ## Claim C4 -/

/-- C4: `AuctionMatcher.matches` returns true iff each of the five checks
passes; a check whose criterion is unspecified passes vacuously; and flipping
any single specified field of the specification from matching to non-matching,
holding the other four criteria fixed, flips the overall result to false. -/
theorem c4_matches_iff_all_checks_and_flip :
    (∀ (s : ResourcesSpecification) (a : Auction),
      AuctionMatcher.matchesAuction s a = true ↔
        ((AuctionMatcher.check_gpu_type s a).passed = true ∧
         (AuctionMatcher.check_num_gpus s a).passed = true ∧
         (AuctionMatcher.check_internode_interconnect s a).passed = true ∧
         (AuctionMatcher.check_intranode_interconnect s a).passed = true ∧
         (AuctionMatcher.check_fcp_instance s a).passed = true)) ∧
    (∀ s a, truthy s.gpu_type = false → (AuctionMatcher.check_gpu_type s a).passed = true) ∧
    (∀ s a, s.num_gpus = none → (AuctionMatcher.check_num_gpus s a).passed = true) ∧
    (∀ s a, truthy s.internode_interconnect = false →
      (AuctionMatcher.check_internode_interconnect s a).passed = true) ∧
    (∀ s a, truthy s.intranode_interconnect = false →
      (AuctionMatcher.check_intranode_interconnect s a).passed = true) ∧
    (∀ s a, truthy s.fcp_instance = false →
      (AuctionMatcher.check_fcp_instance s a).passed = true) ∧
    (∀ s s' a, s'.num_gpus = s.num_gpus →
      s'.internode_interconnect = s.internode_interconnect →
      s'.intranode_interconnect = s.intranode_interconnect →
      s'.fcp_instance = s.fcp_instance →
      AuctionMatcher.matchesAuction s a = true →
      (AuctionMatcher.check_gpu_type s' a).passed = false →
      AuctionMatcher.matchesAuction s' a = false) ∧
    (∀ s s' a, s'.gpu_type = s.gpu_type →
      s'.internode_interconnect = s.internode_interconnect →
      s'.intranode_interconnect = s.intranode_interconnect →
      s'.fcp_instance = s.fcp_instance →
      AuctionMatcher.matchesAuction s a = true →
      (AuctionMatcher.check_num_gpus s' a).passed = false →
      AuctionMatcher.matchesAuction s' a = false) ∧
    (∀ s s' a, s'.gpu_type = s.gpu_type → s'.num_gpus = s.num_gpus →
      s'.intranode_interconnect = s.intranode_interconnect →
      s'.fcp_instance = s.fcp_instance →
      AuctionMatcher.matchesAuction s a = true →
      (AuctionMatcher.check_internode_interconnect s' a).passed = false →
      AuctionMatcher.matchesAuction s' a = false) ∧
    (∀ s s' a, s'.gpu_type = s.gpu_type → s'.num_gpus = s.num_gpus →
      s'.internode_interconnect = s.internode_interconnect →
      s'.fcp_instance = s.fcp_instance →
      AuctionMatcher.matchesAuction s a = true →
      (AuctionMatcher.check_intranode_interconnect s' a).passed = false →
      AuctionMatcher.matchesAuction s' a = false) ∧
    (∀ s s' a, s'.gpu_type = s.gpu_type → s'.num_gpus = s.num_gpus →
      s'.internode_interconnect = s.internode_interconnect →
      s'.intranode_interconnect = s.intranode_interconnect →
      AuctionMatcher.matchesAuction s a = true →
      (AuctionMatcher.check_fcp_instance s' a).passed = false →
      AuctionMatcher.matchesAuction s' a = false) := by
  refine ⟨?_, ?_, ?_, ?_, ?_, ?_, ?_, ?_, ?_, ?_, ?_⟩
  · intro s a
    rw [matches_eq]
    simp [Bool.and_eq_true, and_assoc]
  · intro s a h
    simp [AuctionMatcher.check_gpu_type, h]
  · intro s a h
    simp [AuctionMatcher.check_num_gpus, h]
  · intro s a h
    simp [AuctionMatcher.check_internode_interconnect, h]
  · intro s a h
    simp [AuctionMatcher.check_intranode_interconnect, h]
  · intro s a h
    simp [AuctionMatcher.check_fcp_instance, h]
  · intro s s' a _ _ _ _ _ hf
    rw [matches_eq, hf]
    simp
  · intro s s' a _ _ _ _ _ hf
    rw [matches_eq, hf]
    simp
  · intro s s' a _ _ _ _ _ hf
    rw [matches_eq, hf]
    simp
  · intro s s' a _ _ _ _ _ hf
    rw [matches_eq, hf]
    simp
  · intro s s' a _ _ _ _ _ hf
    rw [matches_eq, hf]
    simp

/-- Witness for C4: flipping the GPU type of a fully matching specification
from A100 to H100 (all other criteria held fixed) flips the match to false. -/
theorem c4_witness :
    AuctionMatcher.matchesAuction
      { gpu_type := some "H100", num_gpus := some 4 }
      { gpu_type := some "NVIDIA A100", inventory_quantity := some 8 } = false :=
  c4_matches_iff_all_checks_and_flip.2.2.2.2.2.2.1
    { gpu_type := some "A100", num_gpus := some 4 }
    { gpu_type := some "H100", num_gpus := some 4 }
    { gpu_type := some "NVIDIA A100", inventory_quantity := some 8 }
    rfl rfl rfl rfl (by decide) (by decide)

/-! ## Claim C6 -/

/-- C6: only an absent num_gpus criterion is vacuously true; a specified 0 or
negative value is still evaluated as `inventory_quantity >= num_gpus` (missing
inventory counts as 0), so num_gpus = -1 and num_gpus = 0 pass against every
auction. -/
theorem c6_num_gpus_zero_and_negative (a : Auction) (s : ResourcesSpecification) :
    (s.num_gpus = none → (AuctionMatcher.check_num_gpus s a).passed = true) ∧
    (∀ n : Int, s.num_gpus = some n →
      (AuctionMatcher.check_num_gpus s a).passed =
        decide (((a.inventory_quantity.getD 0 : Nat) : Int) ≥ n)) ∧
    (s.num_gpus = some (-1) ∨ s.num_gpus = some 0 →
      (AuctionMatcher.check_num_gpus s a).passed = true) := by
  refine ⟨?_, ?_, ?_⟩
  · intro h
    simp [AuctionMatcher.check_num_gpus, h]
  · intro n h
    simp [AuctionMatcher.check_num_gpus, h]
  · rintro (h | h) <;>
      simp only [AuctionMatcher.check_num_gpus, h, ge_iff_le, decide_eq_true_eq] <;>
      omega

/-- Witness for C6: a num_gpus = -1 criterion passes the GPU-count check even
against an auction with no inventory at all. -/
theorem c6_witness :
    (AuctionMatcher.check_num_gpus { num_gpus := some (-1) } { }).passed = true :=
  (c6_num_gpus_zero_and_negative { } { num_gpus := some (-1) }).2.2 (Or.inl rfl)

/-! ## Claim C10 -/

/-- C10: the matcher is total on auctions with absent optional fields — a
`None` gpu_type / interconnect behaves exactly like the empty string and a
`None` inventory_quantity exactly like 0 (every check already returns a plain
boolean, so no evaluation can fail); and the criteria gpu_type is regex-escaped,
so a criterion containing metacharacters (here "a+b") matches only the literal
text "a+b", not the language of the unescaped pattern (which would accept
"aab"). -/
theorem c10_matcher_totality_and_literal_regex :
    (∀ (s : ResourcesSpecification) (a : Auction),
      AuctionMatcher.matchesAuction s { a with gpu_type := none } =
        AuctionMatcher.matchesAuction s { a with gpu_type := some "" }) ∧
    (∀ (s : ResourcesSpecification) (a : Auction),
      AuctionMatcher.matchesAuction s { a with internode_interconnect := none } =
        AuctionMatcher.matchesAuction s { a with internode_interconnect := some "" }) ∧
    (∀ (s : ResourcesSpecification) (a : Auction),
      AuctionMatcher.matchesAuction s { a with intranode_interconnect := none } =
        AuctionMatcher.matchesAuction s { a with intranode_interconnect := some "" }) ∧
    (∀ (s : ResourcesSpecification) (a : Auction),
      AuctionMatcher.matchesAuction s { a with inventory_quantity := none } =
        AuctionMatcher.matchesAuction s { a with inventory_quantity := some 0 }) ∧
    (AuctionMatcher.check_gpu_type { gpu_type := some "a+b" }
      { gpu_type := some "x a+b y" }).passed = true ∧
    (AuctionMatcher.check_gpu_type { gpu_type := some "a+b" }
      { gpu_type := some "aab" }).passed = false := by
  refine ⟨?_, ?_, ?_, ?_, by decide, by decide⟩ <;>
    · intro s a
      rw [matches_eq, matches_eq]
      simp [AuctionMatcher.check_gpu_type, AuctionMatcher.check_num_gpus,
        AuctionMatcher.check_internode_interconnect,
        AuctionMatcher.check_intranode_interconnect, AuctionMatcher.check_fcp_instance]

/-! ## Claim C5 -/

/-- C5 (code bug): when only a project_id is supplied and no catalog exists,
`fetch_auctions` returns the Foundry list unmodified only when that list is
non-empty; an empty Foundry result falls through to the
"You must provide either ..." ValueError that the docstring reserves for the
supplying-neither case.  Conjunct 1 evaluates the failing input, conjunct 2 the
supplying-neither case, conjunct 3 the non-empty pass-through. -/
theorem c5_fetch_auctions_empty_foundry_bug :
    AuctionFinder.fetch_auctions (some "proj-1") none [] (fun _ => []) false [] =
      .error "You must provide either project_id to fetch from Foundry or local_catalog_path to load a static catalog, or both." ∧
    AuctionFinder.fetch_auctions none none [] (fun _ => []) false [] =
      .error "You must provide either project_id to fetch from Foundry or local_catalog_path to load a static catalog, or both." ∧
    AuctionFinder.fetch_auctions (some "proj-1") none
        [{ gpu_type := some "NVIDIA A100", inventory_quantity := some 8 }]
        (fun _ => []) false [] =
      .ok [{ gpu_type := some "NVIDIA A100", inventory_quantity := some 8 }] := by
  refine ⟨by decide, by decide, by decide⟩

/-! ## Claim C7 -/

/-- C7: an explicit utility_threshold_price takes precedence over the priority
tier (the result is `int(u * 100)` regardless of priority); otherwise the
result is the priority-table price times 100 (looked up case-insensitively);
a priority outside the table is a ValueError. -/
theorem c7_prepare_limit_price_cents :
    (∀ (priority : String) (u : Rat),
      FlowTaskManager.prepare_limit_price_cents priority (some u) =
        .ok (pyTrunc (u * 100))) ∧
    (∀ (priority : String) (price : Rat),
      PRIORITY_PRICE_MAPPING.lookup (pyLower priority) = some price →
      FlowTaskManager.prepare_limit_price_cents priority none =
        .ok (pyTrunc (price * 100))) ∧
    (∀ priority : String,
      PRIORITY_PRICE_MAPPING.lookup (pyLower priority) = none →
      ∃ msg, FlowTaskManager.prepare_limit_price_cents priority none =
        .error (.valueError msg)) := by
  refine ⟨?_, ?_, ?_⟩
  · intro priority u
    simp [FlowTaskManager.prepare_limit_price_cents, ratMul100_eq]
  · intro priority price h
    simp [FlowTaskManager.prepare_limit_price_cents, h, ratMul100_eq]
  · intro priority h
    unfold FlowTaskManager.prepare_limit_price_cents
    rw [h]
    exact ⟨_, rfl⟩

/-- Witness for C7: the "high" tier yields 1229 cents even when asked with an
uppercased priority; an unknown priority "gold" is a ValueError; an explicit
threshold of 7.99 beats the "low" tier. -/
theorem c7_witness :
    FlowTaskManager.prepare_limit_price_cents "High" none =
      .ok (pyTrunc (mkRat 1229 100 * 100)) ∧
    (∃ msg, FlowTaskManager.prepare_limit_price_cents "gold" none =
      .error (.valueError msg)) ∧
    FlowTaskManager.prepare_limit_price_cents "low" (some (mkRat 799 100)) =
      .ok (pyTrunc (mkRat 799 100 * 100)) :=
  ⟨c7_prepare_limit_price_cents.2.1 "High" (mkRat 1229 100) (by decide),
   c7_prepare_limit_price_cents.2.2 "gold" (by decide),
   c7_prepare_limit_price_cents.1 "low" (mkRat 799 100)⟩

/-! ## Claim C8 -/

/-- C8: `cancel_bid` is idempotent for missing bids — an APIError whose message
reports "Bid not found" is swallowed and the call returns normally; every
other error outcome propagates unchanged, and a successful remote cancel
returns normally. -/
theorem c8_cancel_bid_idempotent :
    (∀ msg : String, strContains msg "Bid not found" = true →
      BidService.cancel_bid (.error (.apiError msg)) = .ok ()) ∧
    (∀ e : PyExc, (∀ msg, e = .apiError msg → strContains msg "Bid not found" = false) →
      BidService.cancel_bid (.error e) = .error e) ∧
    BidService.cancel_bid (.ok ()) = .ok () := by
  refine ⟨?_, ?_, rfl⟩
  · intro msg h
    simp [BidService.cancel_bid, h]
  · intro e h
    cases e with
    | apiError msg => simp [BidService.cancel_bid, h msg rfl]
    | _ => rfl

/-- Witness for C8: a 404 "Bid not found" cancellation returns normally; an
unrelated 500 error propagates unchanged. -/
theorem c8_witness :
    BidService.cancel_bid (.error (.apiError "API request failed [404]: Bid not found")) =
      .ok () ∧
    BidService.cancel_bid (.error (.apiError "API request failed [500]: boom")) =
      .error (.apiError "API request failed [500]: boom") :=
  ⟨c8_cancel_bid_idempotent.1 "API request failed [404]: Bid not found" (by decide),
   c8_cancel_bid_idempotent.2.1 (.apiError "API request failed [500]: boom")
     (by intro msg hm; cases hm; decide)⟩

/-! ## Claim C3 -/

/-- C3 counterexample: a programmer error (`TypeError`) raised inside the bid
client is NOT propagated unchanged by `BidSubmitter.submit` — the
`except Exception` clause wraps it in `BidSubmissionError` too, contradicting
the claim that only the remote-call-failed shape is re-wrapped. -/
theorem c3_counterexample :
    BidSubmitter.submit (β := Unit)
        (.error (.typeError "unsupported operand type")) =
      .error (.bidSubmissionError "Bid submission failed"
        (.typeError "unsupported operand type")) ∧
    BidSubmitter.submit (β := Unit)
        (.error (.typeError "unsupported operand type")) ≠
      .error (.typeError "unsupported operand type") := by
  exact ⟨by decide, by decide⟩

/-- C3 (amended): `BidSubmitter.submit` passes successful results through and
wraps EVERY `Exception`-class error raised by `place_bid` — the remote-call
error taxonomy and programmer errors alike — into `BidSubmissionError` with
the original as cause; only non-`Exception` `BaseException`s
(KeyboardInterrupt, SystemExit) propagate unchanged. -/
theorem c3_submit_wraps_every_exception :
    (∀ (β : Type) (b : β), BidSubmitter.submit (.ok b) = .ok b) ∧
    (∀ (β : Type) (e : PyExc), e.isExceptionClass = true →
      BidSubmitter.submit (β := β) (.error e) =
        .error (.bidSubmissionError "Bid submission failed" e)) ∧
    (∀ (β : Type) (e : PyExc), e.isExceptionClass = false →
      BidSubmitter.submit (β := β) (.error e) = .error e) := by
  refine ⟨fun β b => rfl, ?_, ?_⟩
  · intro β e h
    simp [BidSubmitter.submit, h]
  · intro β e h
    simp [BidSubmitter.submit, h]

/-- Witness for C3: an APIError from the remote call is wrapped with itself as
cause; a KeyboardInterrupt escapes unwrapped. -/
theorem c3_witness :
    BidSubmitter.submit (β := Unit) (.error (.apiError "remote call failed")) =
      .error (.bidSubmissionError "Bid submission failed" (.apiError "remote call failed")) ∧
    BidSubmitter.submit (β := Unit) (.error .keyboardInterrupt) =
      .error .keyboardInterrupt :=
  ⟨c3_submit_wraps_every_exception.2.1 Unit (.apiError "remote call failed") (by decide),
   c3_submit_wraps_every_exception.2.2 Unit .keyboardInterrupt (by decide)⟩

/-! ## Claim C9 -/

/-- C9: in single-bid mode (a pre-built payload, or raw parameters with
allow_partial_fulfillment = False) `BidManager.submit_bid` places the bid by
calling the foundry client's `place_bid` directly through
`_submit_single_bid`, so a failing remote call surfaces the client's original
exception unchanged — never a `BidSubmissionError` wrapper. -/
theorem c9_single_bid_bypasses_submitter :
    (∀ (β : Type) (place : String → BidPayload → Except PyExc β)
        (customizer : Option (Nat → Option String → Option String))
        (project_id : String) (p : BidPayload) (args : SubmitBidArgs) (b : β),
      place project_id p = .ok b →
      BidManager.submit_bid place customizer project_id (some p) args = .ok [b]) ∧
    (∀ (β : Type) (place : String → BidPayload → Except PyExc β)
        (customizer : Option (Nat → Option String → Option String))
        (project_id : String) (p : BidPayload) (args : SubmitBidArgs) (e : PyExc),
      place project_id p = .error e →
      BidManager.submit_bid place customizer project_id (some p) args = .error e) ∧
    (∀ (β : Type) (place : String → BidPayload → Except PyExc β)
        (customizer : Option (Nat → Option String → Option String))
        (project_id : String) (args : SubmitBidArgs) (q : BidPayload) (e : PyExc),
      args.allow_partial_fulfillment = false →
      args.allRequired = true →
      mkBidPayload (args.cluster_id.getD "") (args.instance_quantity.getD 0)
        (args.instance_type_id.getD "") (args.limit_price_cents.getD 0)
        (args.order_name.getD "") project_id [args.ssh_key_id.getD ""]
        (args.user_id.getD "") args.startup_script args.disk_attachments = .ok q →
      place project_id q = .error e →
      BidManager.submit_bid place customizer project_id none args = .error e) := by
  refine ⟨?_, ?_, ?_⟩
  · intro β place customizer project_id p args b h
    simp [BidManager.submit_bid, BidManager.submitSingleBid, h]
  · intro β place customizer project_id p args e h
    simp [BidManager.submit_bid, BidManager.submitSingleBid, h]
  · intro β place customizer project_id args q e hpf hall hbuild hplace
    simp [BidManager.submit_bid, BidManager.submitSingleBid, hpf, hall, hbuild, hplace]

/-- Witness for C9: with a client whose `place_bid` raises a plain APIError,
single-bid mode (pre-built payload) surfaces exactly that APIError, and
raw-parameter single-bid mode does too — no BidSubmissionError wrapper. -/
theorem c9_witness :
    BidManager.submit_bid (β := Unit) (fun _ _ => .error (.apiError "remote down")) none
      "proj-1"
      (some { cluster_id := "cluster-1", instance_quantity := 2,
              instance_type_id := "it-1", limit_price_cents := 500,
              order_name := "job-1", project_id := "proj-1",
              ssh_key_ids := ["ssh-1"], user_id := "user-1" })
      { } = .error (.apiError "remote down") ∧
    BidManager.submit_bid (β := Unit) (fun _ _ => .error (.apiError "remote down")) none
      "proj-1" none
      { cluster_id := some "cluster-1", instance_quantity := some 2,
        instance_type_id := some "it-1", limit_price_cents := some 500,
        order_name := some "job-1", ssh_key_id := some "ssh-1",
        user_id := some "user-1" } = .error (.apiError "remote down") :=
  ⟨c9_single_bid_bypasses_submitter.2.1 Unit (fun _ _ => .error (.apiError "remote down"))
      none "proj-1"
      { cluster_id := "cluster-1", instance_quantity := 2, instance_type_id := "it-1",
        limit_price_cents := 500, order_name := "job-1", project_id := "proj-1",
        ssh_key_ids := ["ssh-1"], user_id := "user-1" }
      { } (.apiError "remote down") rfl,
   c9_single_bid_bypasses_submitter.2.2 Unit (fun _ _ => .error (.apiError "remote down"))
      none "proj-1"
      { cluster_id := some "cluster-1", instance_quantity := some 2,
        instance_type_id := some "it-1", limit_price_cents := some 500,
        order_name := some "job-1", ssh_key_id := some "ssh-1",
        user_id := some "user-1" }
      { cluster_id := "cluster-1", instance_quantity := 2, instance_type_id := "it-1",
        limit_price_cents := 500, order_name := "job-1", project_id := "proj-1",
        ssh_key_ids := ["ssh-1"], user_id := "user-1" }
      (.apiError "remote down") rfl (by decide) (by decide) rfl⟩

/-! ## Claim C1 -/

/-- C1 counterexample: on a 400 "order already exists" response the
synthesized `BidResponse` has NO "status" field at all (and no "order_name"
field — the payload's order name is stored in `name`), so the claim that the
returned response has `status = "duplicate"` and field `order_name` is false
at this concrete input. -/
theorem c1_counterexample :
    ∃ r : BidResponse,
      BidService.place_bid "uuid-0" "svc-user"
        { cluster_id := "cluster-1", instance_quantity := 2,
          instance_type_id := "it-1", limit_price_cents := 500,
          order_name := "job-1", project_id := "proj-1",
          ssh_key_ids := ["ssh-1"], user_id := "user-1" }
        none (.httpError 400 "Order named job-1 already exists") = .ok r ∧
      (r.dumpFields).lookup "status" = none ∧
      (r.dumpFields).lookup "order_name" = none ∧
      r.name = some "job-1" := by
  refine ⟨_, rfl, by decide, by decide, by decide⟩

/-- C1 (amended): when the remote place-bid call fails with a response of
status exactly 400 whose lowercased body contains both "order named" and
"already exists", `BidService.place_bid` does not raise: it returns the
locally synthesized `BidResponse` whose `name` (not `order_name`) equals the
payload's order_name; the resource fields are copied from the request payload
(the `request_data.get(..., "unknown")` placeholders fire only for fields
absent from the request data, which cannot happen for required payload
fields), project_id comes from the payload and user_id from the service's
authenticated user; and the synthesized response passes the model's
non-empty-field validation whenever the uuid and the payload's cluster and
instance-type ids are non-blank, so no validation error occurs. -/
theorem c1_duplicate_bid_synthesizes_response (uuid svc : String) (payload : BidPayload)
    (idKey : Option String) (body : String)
    (h1 : strContains (pyLower body) "order named" = true)
    (h2 : strContains (pyLower body) "already exists" = true) :
    ∃ r : BidResponse,
      BidService.place_bid uuid svc payload idKey (.httpError 400 body) = .ok r ∧
      r.name = some payload.order_name ∧
      r.cluster_id = payload.cluster_id ∧
      r.instance_quantity = payload.instance_quantity ∧
      r.instance_type_id = payload.instance_type_id ∧
      r.limit_price_cents = payload.limit_price_cents ∧
      r.project_id = some payload.project_id ∧
      r.user_id = some svc ∧
      ((pyStrip uuid).isEmpty = false → (pyStrip payload.cluster_id).isEmpty = false →
        (pyStrip payload.instance_type_id).isEmpty = false →
        r.validFields = true) := by
  refine ⟨BidResponse.dummy_response uuid payload.order_name (some payload.project_id)
    (some svc) (some []) payload.cluster_id payload.instance_quantity
    payload.instance_type_id payload.limit_price_cents,
    ?_, rfl, rfl, rfl, rfl, rfl, rfl, rfl, ?_⟩
  · simp [BidService.place_bid, h1, h2]
  · intro hu hc hi
    simp [BidResponse.validFields, BidResponse.dummy_response, hu, hc, hi]

/-- Witness for C1: the amended theorem applied at a concrete payload and a
concrete 400 duplicate-order body. -/
theorem c1_witness :
    ∃ r : BidResponse,
      BidService.place_bid "uuid-0" "svc-user"
        { cluster_id := "cluster-1", instance_quantity := 2,
          instance_type_id := "it-1", limit_price_cents := 500,
          order_name := "job-1", project_id := "proj-1",
          ssh_key_ids := ["ssh-1"], user_id := "user-1" }
        (some "idem-key-1")
        (.httpError 400 "Order named job-1 already exists") = .ok r ∧
      r.name = some "job-1" ∧
      r.cluster_id = "cluster-1" ∧
      r.instance_quantity = 2 ∧
      r.instance_type_id = "it-1" ∧
      r.limit_price_cents = 500 ∧
      r.project_id = some "proj-1" ∧
      r.user_id = some "svc-user" ∧
      ((pyStrip "uuid-0").isEmpty = false → (pyStrip "cluster-1").isEmpty = false →
        (pyStrip "it-1").isEmpty = false → r.validFields = true) :=
  c1_duplicate_bid_synthesizes_response "uuid-0" "svc-user"
    { cluster_id := "cluster-1", instance_quantity := 2, instance_type_id := "it-1",
      limit_price_cents := 500, order_name := "job-1", project_id := "proj-1",
      ssh_key_ids := ["ssh-1"], user_id := "user-1" }
    (some "idem-key-1") "Order named job-1 already exists" (by decide) (by decide)

/-! ## Claim C2 -/

/-- Closed form of the BidPayload the chunk loop builds for chunk number `j`
(1-based) of size `q`. -/
def chunkPayloadSpec (customizer : Option (Nat → Option String → Option String))
    (project_id : String) (params : PartialBidParams) (j q : Nat) : BidPayload :=
  { cluster_id := params.cluster_id
    instance_quantity := (q : Int)
    instance_type_id := params.instance_type_id
    limit_price_cents := params.limit_price_cents
    order_name := params.order_name ++ s!"-chunk{j}"
    project_id := project_id
    ssh_key_ids := [params.ssh_key_id]
    user_id := params.user_id
    startup_script :=
      match customizer with
      | some f => f j params.startup_script
      | none => params.startup_script
    disk_attachments := params.disk_attachments }

/-- Building a chunk payload succeeds — with the closed-form result — whenever
the chunk size and the limit price are positive. -/
theorem chunkPayload_ok (customizer : Option (Nat → Option String → Option String))
    (project_id : String) (params : PartialBidParams) (j q : Nat)
    (hq : 0 < q) (hp : 0 < params.limit_price_cents) :
    chunkPayload customizer project_id params j q =
      .ok (chunkPayloadSpec customizer project_id params j q) := by
  unfold chunkPayload mkBidPayload chunkPayloadSpec
  rw [if_neg (Int.not_le.mpr (by exact_mod_cast hq)), if_neg (Int.not_le.mpr hp)]

/-- One chunk-loop step of the ceiling-division chunk count. -/
theorem ceil_chunks_succ (c r : Nat) (hc : 0 < c) (hr : 0 < r) :
    (r + c - 1) / c = ((r - min c r) + c - 1) / c + 1 := by
  rcases Nat.le_total c r with h | h
  · rw [Nat.min_eq_left h]
    have h1 : r + c - 1 = (r - c + c - 1) + c := by omega
    rw [h1, Nat.add_div_right _ hc]
  · rw [Nat.min_eq_right h, Nat.sub_self, Nat.zero_add]
    have h1 : (c - 1) / c = 0 := Nat.div_eq_of_lt (by omega)
    have h2 : (r + c - 1) / c = 1 := by
      apply Nat.div_eq_of_lt_le <;> omega
    rw [h1, h2]

/-- What remains after peeling one chunk, re-indexed: the value remaining
before chunk `n` of the tail loop equals the value remaining before chunk
`n + 1` of the original loop. -/
theorem remaining_after_chunk (c r n : Nat) :
    (r - min c r) - n * c = r - (n + 1) * c := by
  rcases Nat.le_total c r with h | h
  · rw [Nat.min_eq_left h, Nat.succ_mul, Nat.sub_sub, Nat.add_comm]
  · rw [Nat.min_eq_right h, Nat.sub_self, Nat.zero_sub]
    symm
    apply Nat.sub_eq_zero_of_le
    calc r ≤ c := h
      _ ≤ (n + 1) * c := Nat.le_mul_of_pos_left c (Nat.succ_pos n)

/-- The chunk loop with an always-succeeding submitter produces exactly the
ceiling-division number of chunks, in order, with the closed-form payloads. -/
theorem submitChunksLoop_ok {β : Type} (f : BidPayload → β)
    (customizer : Option (Nat → Option String → Option String)) (project_id : String)
    (params : PartialBidParams) (hc : 0 < params.chunk_size)
    (hp : 0 < params.limit_price_cents) :
    ∀ (r i : Nat),
      submitChunksLoop (fun p => .ok (f p)) customizer project_id params i r =
        .ok ((List.range ((r + params.chunk_size - 1) / params.chunk_size)).map
          (fun n => f (chunkPayloadSpec customizer project_id params (i + n)
            (min params.chunk_size (r - n * params.chunk_size))))) := by
  intro r
  induction r using Nat.strong_induction_on with
  | _ r ih =>
    intro i
    by_cases h0 : r = 0
    · subst h0
      rw [submitChunksLoop]
      have hdiv : (0 + params.chunk_size - 1) / params.chunk_size = 0 :=
        Nat.div_eq_of_lt (by omega)
      rw [hdiv]
      simp
    · rw [submitChunksLoop, dif_neg h0, dif_neg (by omega : ¬params.chunk_size = 0)]
      have hcur : 0 < min params.chunk_size r := lt_min hc (by omega)
      rw [chunkPayload_ok customizer project_id params i _ hcur hp]
      have hless : r - min params.chunk_size r < r := by
        have := Nat.min_le_left params.chunk_size r
        omega
      rw [ih _ hless (i + 1)]
      rw [ceil_chunks_succ params.chunk_size r hc (by omega), List.range_succ_eq_map]
      simp only [List.map_cons, List.map_map]
      congr 1
      have hhead : chunkPayloadSpec customizer project_id params (i + 0)
          (min params.chunk_size (r - 0 * params.chunk_size)) =
          chunkPayloadSpec customizer project_id params i (min params.chunk_size r) := by
        norm_num
      rw [hhead]
      congr 1
      apply List.map_congr_left
      intro n _
      simp only [Function.comp_apply, Nat.succ_eq_add_one]
      rw [remaining_after_chunk]
      have h1 : i + 1 + n = i + (n + 1) := by omega
      rw [h1]

/-- C2: for a PartialBidParams with positive quantity Q, chunk size C and
limit price, `submit_chunks` builds and submits exactly `(Q + C - 1) / C`
(= ceil(Q/C)) payloads, in order; chunk `n` (0-based position) carries
`min C (Q - n*C)` instances and order name `{base}-chunk{n+1}` (1-indexed,
contiguous), and the returned bid list is the image of the payload list, in
chunk order. -/
theorem c2_submit_chunks_shape {β : Type} (f : BidPayload → β)
    (customizer : Option (Nat → Option String → Option String)) (project_id : String)
    (params : PartialBidParams) (_hq : 0 < params.instance_quantity)
    (hc : 0 < params.chunk_size) (hp : 0 < params.limit_price_cents) :
    ChunkedBidEngine.submit_chunks (fun p => .ok (f p)) customizer project_id params =
      .ok ((List.range
          ((params.instance_quantity + params.chunk_size - 1) / params.chunk_size)).map
        (fun n => f (chunkPayloadSpec customizer project_id params (n + 1)
          (min params.chunk_size (params.instance_quantity - n * params.chunk_size))))) := by
  unfold ChunkedBidEngine.submit_chunks
  rw [submitChunksLoop_ok f customizer project_id params hc hp params.instance_quantity 1]
  congr 1
  apply List.map_congr_left
  intro n _
  congr 2
  omega

/-- The parameters of the claim's concrete example: 100 instances in chunks
of 30. -/
def exampleChunkParams : PartialBidParams :=
  { cluster_id := "cluster-1", instance_quantity := 100, instance_type_id := "it-1",
    limit_price_cents := 500, order_name := "big-job", ssh_key_id := "ssh-1",
    user_id := "user-1", chunk_size := 30 }

/-- Witness for C2: at Q=100, C=30 the engine submits exactly 4 chunks, the
built payloads carry sizes [30, 30, 30, 10] and order names
big-job-chunk1 .. big-job-chunk4, in that order. -/
theorem c2_witness :
    ChunkedBidEngine.submit_chunks (fun p => Except.ok p) none "proj-1"
        exampleChunkParams =
      .ok ((List.range ((100 + 30 - 1) / 30)).map
        (fun n => chunkPayloadSpec none "proj-1" exampleChunkParams (n + 1)
          (min 30 (100 - n * 30)))) ∧
    (List.range ((100 + 30 - 1) / 30)).map
        (fun n => (chunkPayloadSpec none "proj-1" exampleChunkParams (n + 1)
          (min 30 (100 - n * 30))).instance_quantity) = [30, 30, 30, 10] ∧
    (List.range ((100 + 30 - 1) / 30)).map
        (fun n => (chunkPayloadSpec none "proj-1" exampleChunkParams (n + 1)
          (min 30 (100 - n * 30))).order_name) =
      ["big-job-chunk1", "big-job-chunk2", "big-job-chunk3", "big-job-chunk4"] :=
  ⟨c2_submit_chunks_shape (f := fun p => p) none "proj-1" exampleChunkParams
      (by decide) (by decide) (by decide),
   by decide, by decide⟩
